import Mathlib

/-
Verification development for the mc-manager content manager
(src/mc-manager.py): a shallow embedding of its data model — the
installed-content ledger with its three category buckets — and of the
operations `search` (facet construction), `install`, `uninstall` and
`update`, together with theorems about the properties the program is
expected to satisfy.

External effects (HTTP requests, file-system reads/writes, interactive
input) are modelled by explicit parameters: the result of each remote call
and the success of each file operation are inputs to the embedded
functions, and each operation returns, besides the new ledger, flags
recording which effects it performed (whether a download was attempted,
whether the ledger file was written, whether a warning was printed).
-/

set_option autoImplicit false

/-- Content categories (src/mc-manager.py lines 32-35, class ContentType). -/
inductive ContentType where
  | MOD
  | RESOURCE_PACK
  | SHADER_PACK
  deriving Repr, DecidableEq

/-- One installed-content record, the value stored under a project id in a
category bucket (src/mc-manager.py lines 273-278 and 410-415). -/
structure Entry where
  name : String
  version : String
  filename : String
  installed_at : String
  deriving Repr, DecidableEq

/-- A category bucket: a Python dict from project id to record, modelled as
an insertion-ordered association list with unique keys. -/
abbrev Bucket : Type := List (String × Entry)

/-- The installed-content ledger, shape of the persisted JSON object
`{"mods": {...}, "resourcepacks": {...}, "shaderpacks": {...}}`
(src/mc-manager.py lines 173-177 and section 6 of the design). -/
structure Ledger where
  mods : Bucket
  resourcepacks : Bucket
  shaderpacks : Bucket
  deriving Repr, DecidableEq

/-- The empty three-bucket structure created when the config file is missing
or corrupted (src/mc-manager.py lines 173-177). -/
def default_ledger : Ledger := ⟨[], [], []⟩

/-- Python dict assignment `d[k] = v`: replace the value in place when the
key is present, append at the end otherwise. -/
def dict_insert : Bucket → String → Entry → Bucket
  | [], k, v => [(k, v)]
  | p :: rest, k, v => if p.1 == k then (k, v) :: rest else p :: dict_insert rest k v

/-- Python dict deletion `del d[k]`. -/
def dict_remove : Bucket → String → Bucket
  | [], _ => []
  | p :: rest, k => if p.1 == k then dict_remove rest k else p :: dict_remove rest k

/-- Python dict lookup `d.get(k)`. -/
def dict_lookup : Bucket → String → Option Entry
  | [], _ => none
  | p :: rest, k => if p.1 == k then some p.2 else dict_lookup rest k

/-- `MinecraftManager.get_content_dict` (src/mc-manager.py lines 195-204):
the category's bucket of the ledger. -/
def get_content_dict (l : Ledger) : ContentType → Bucket
  | ContentType.MOD => l.mods
  | ContentType.RESOURCE_PACK => l.resourcepacks
  | ContentType.SHADER_PACK => l.shaderpacks

/-- Writing a category's bucket back into the ledger. In the Python source
this is implicit: `get_content_dict` returns an alias into
`self.installed_content`, so mutating the returned dict mutates exactly that
one bucket of the ledger. -/
def set_content_dict (l : Ledger) : ContentType → Bucket → Ledger
  | ContentType.MOD, b => ⟨b, l.resourcepacks, l.shaderpacks⟩
  | ContentType.RESOURCE_PACK, b => ⟨l.mods, b, l.shaderpacks⟩
  | ContentType.SHADER_PACK, b => ⟨l.mods, l.resourcepacks, b⟩

/-- State of the config file found at process start. -/
inductive ConfigFile where
  | missing
  | corrupted
  | parsed (ledger : Ledger)
  deriving DecidableEq

/-- `MinecraftManager._load_installed_content` (src/mc-manager.py lines
163-177): return the parsed ledger when the file exists and parses; when the
file is missing, or exists but fails to parse as JSON (in which case a
corruption warning is printed), return the default empty structure. The
second component records whether the corruption warning was printed. -/
def load_installed_content : ConfigFile → Ledger × Bool
  | ConfigFile.missing => (default_ledger, false)
  | ConfigFile.corrupted => (default_ledger, true)
  | ConfigFile.parsed l => (l, false)

/-- ASCII lowering, modelling Python `str.lower()` on the ASCII names and
queries this program deals in. -/
def py_lower (s : String) : String := String.mk (s.data.map Char.toLower)

/-- `needle in haystack` on character lists: Python's substring test. -/
def starts_with_chars : List Char → List Char → Bool
  | _, [] => true
  | [], _ :: _ => false
  | a :: as, b :: bs => a == b && starts_with_chars as bs

/-- Substring containment: some position of `haystack` starts with `needle`. -/
def has_substring : List Char → List Char → Bool
  | [], needle => needle.isEmpty
  | a :: rest, needle => starts_with_chars (a :: rest) needle || has_substring rest needle

/-- The name filter of `uninstall` and `update`
(src/mc-manager.py lines 303-304 and 353-354):
`name_query.lower() in info["name"].lower()`. -/
def name_matches (name_query : String) (display_name : String) : Bool :=
  has_substring (py_lower display_name).data (py_lower name_query).data

/-- The match-list comprehension shared by `uninstall` (lines 303-304) and
`update` (lines 353-354): all entries whose display name contains the query. -/
def find_matches (content_dict : Bucket) (name_query : String) : Bucket :=
  content_dict.filter (fun p => name_matches name_query p.2.name)

/-- Facet list built by `ModrinthAPI.search` (src/mc-manager.py lines 58-74).
The shader branch (line 65) assigns a facet list containing
`project_type:shader` and leaves the project type unset; the unconditional
rebinding `facets = []` at line 69 then discards that assignment, so only
facets appended after line 69 — the project-type facet when a project type
was set, and the game-version facet — reach the request. -/
def search_facets (content_type : ContentType) (game_versions : List String) :
    List (List String) :=
  let facets : List (List String) :=
    match content_type with
    | ContentType.SHADER_PACK => [["project_type:shader"]]
    | _ => []
  let project_type : Option String :=
    match content_type with
    | ContentType.MOD => some "mod"
    | ContentType.RESOURCE_PACK => some "resourcepack"
    | ContentType.SHADER_PACK => none
  let facets : List (List String) := []
  let facets : List (List String) :=
    match project_type with
    | some pt => facets ++ [["project_type:" ++ pt]]
    | none => facets
  let facets : List (List String) :=
    if game_versions.isEmpty then facets
    else facets ++ [game_versions.map (fun v => "versions:" ++ v)]
  facets

/-- A downloadable file descriptor inside a version (url, filename, primary
flag), as consumed at src/mc-manager.py lines 257-266 and 390-399. -/
structure FileInfo where
  url : String
  filename : String
  primary : Bool
  deriving Repr, DecidableEq

/-- A version descriptor as consumed by `install` and `update`
(version label, publish timestamp, file set). -/
structure VersionInfo where
  version_number : String
  date_published : String
  files : List FileInfo
  deriving Repr, DecidableEq

/-- Project metadata as consumed by `install` (only the title is used). -/
structure Project where
  title : String
  deriving Repr, DecidableEq

/-- Primary-file selection, the expression
`next((f for f in version["files"] if f.get("primary")), version["files"][0])`
used by both `install` (line 257) and `update` (line 390); `none` exactly
when the file set is empty, the case both callers reject just before. -/
def select_primary_file : List FileInfo → Option FileInfo
  | [] => none
  | f0 :: rest => some (((f0 :: rest).find? (fun f => f.primary)).getD f0)

/-- Outcome reported by `install`. -/
inductive InstallOutcome where
  | projectNotFound
  | noVersions
  | noFiles
  | downloadFailed
  | installed
  deriving Repr, DecidableEq

/-- Result of an `install` invocation: the ledger afterwards, whether the
file download was attempted, whether `_save_installed_content` ran, and the
reported outcome. -/
structure InstallResult where
  ledger : Ledger
  downloaded : Bool
  saved : Bool
  outcome : InstallOutcome
  deriving Repr, DecidableEq

/-- `MinecraftManager.install` (src/mc-manager.py lines 232-281). The remote
answers are passed in: `project` is the `get_project` result (`none` for the
falsy empty dict), `versions` the `get_versions` result, and `download_ok`
what `download_file` returns when it is reached. -/
def install (l : Ledger) (project_id : String) (ct : ContentType)
    (project : Option Project) (versions : List VersionInfo)
    (download_ok : Bool) : InstallResult :=
  match project with
  | none => ⟨l, false, false, InstallOutcome.projectNotFound⟩
  | some proj =>
    match versions with
    | [] => ⟨l, false, false, InstallOutcome.noVersions⟩
    | version :: _ =>
      match select_primary_file version.files with
      | none => ⟨l, false, false, InstallOutcome.noFiles⟩
      | some primary_file =>
        if download_ok then
          let entry : Entry :=
            ⟨proj.title, version.version_number, primary_file.filename,
              version.date_published⟩
          ⟨set_content_dict l ct (dict_insert (get_content_dict l ct) project_id entry),
            true, true, InstallOutcome.installed⟩
        else
          ⟨l, true, false, InstallOutcome.downloadFailed⟩

/-- Outcome reported by `uninstall`. -/
inductive UninstallOutcome where
  | noMatch
  | invalidSelection
  | cancelled
  | deleteFailed
  | removed
  deriving Repr, DecidableEq

/-- Result of an `uninstall` invocation: the ledger afterwards, whether file
deletion was attempted, whether the ledger was persisted, and the outcome. -/
structure UninstallResult where
  ledger : Ledger
  deleteAttempted : Bool
  saved : Bool
  outcome : UninstallOutcome
  deriving Repr, DecidableEq

/-- The tail of `uninstall` once a single entry is resolved
(src/mc-manager.py lines 327-339): if the recorded file exists, try to
delete it and abort on an OS error; a missing file skips deletion entirely;
then remove the entry from the bucket and persist. `file_exists` models
`file_path.exists()` and `delete_ok` whether `os.remove` succeeds. -/
def uninstall_resolved (l : Ledger) (ct : ContentType) (content_dict : Bucket)
    (chosen : String × Entry) (file_exists : Bool) (delete_ok : Bool) :
    UninstallResult :=
  if file_exists then
    if delete_ok then
      ⟨set_content_dict l ct (dict_remove content_dict chosen.1),
        true, true, UninstallOutcome.removed⟩
    else
      ⟨l, true, false, UninstallOutcome.deleteFailed⟩
  else
    ⟨set_content_dict l ct (dict_remove content_dict chosen.1),
      false, true, UninstallOutcome.removed⟩

/-- `MinecraftManager.uninstall` (src/mc-manager.py lines 297-339).
`selection_input` models the interactive disambiguation read when several
entries match: `none` when `int(input(...))` raises `ValueError`, otherwise
the integer entered. An out-of-range selection returns silently with no
mutation. -/
def uninstall (l : Ledger) (name_query : String) (ct : ContentType)
    (selection_input : Option Int) (file_exists : Bool) (delete_ok : Bool) :
    UninstallResult :=
  let content_dict := get_content_dict l ct
  let matched := find_matches content_dict name_query
  match matched with
  | [] => ⟨l, false, false, UninstallOutcome.noMatch⟩
  | [single] => uninstall_resolved l ct content_dict single file_exists delete_ok
  | _ :: _ :: _ =>
    match selection_input with
    | none => ⟨l, false, false, UninstallOutcome.invalidSelection⟩
    | some s =>
      if 1 ≤ s ∧ s ≤ (matched.length : Int) then
        match matched.get? (s - 1).toNat with
        | some chosen => uninstall_resolved l ct content_dict chosen file_exists delete_ok
        | none => ⟨l, false, false, UninstallOutcome.cancelled⟩
      else
        ⟨l, false, false, UninstallOutcome.cancelled⟩

/-- Outcome reported by the per-entry body of the `update` loop. -/
inductive UpdateOutcome where
  | noVersions
  | upToDate
  | noFiles
  | downloadFailed
  | updated
  deriving Repr, DecidableEq

/-- The external effects consulted by `update`, per project id: the
`get_versions` answer, whether `download_file` succeeds, whether the old
file exists at deletion time, and whether `os.remove` of the old file
succeeds. -/
structure UpdateEnv where
  versionsOf : String → List VersionInfo
  downloadOk : String → Bool
  oldFileExists : String → Bool
  deleteOk : String → Bool

/-- What one iteration of the `update` loop did to its entry: the
replacement record when one was written (the iteration also persisted the
ledger exactly then), whether a download was attempted, whether the ledger
was persisted, whether the could-not-remove-old-file warning was printed,
and the reported outcome. -/
structure EntryStepResult where
  newEntry : Option Entry
  downloaded : Bool
  saved : Bool
  warnedOldDelete : Bool
  outcome : UpdateOutcome
  deriving Repr, DecidableEq

/-- One iteration of the `update` loop (src/mc-manager.py lines 368-420) for
entry `info` recorded under `project_id`: fetch versions (skip when none),
skip when the latest label equals the recorded one, pick the primary file
(skip when the file set is empty), download; on success delete the old file
when its path differs from the new one and it exists — an OS error there is
only a warning — then write the new record; on download failure leave the
entry untouched. The old and new paths are the category directory joined
with the old and new filenames, so they differ exactly when the filenames
do. -/
def update_entry (env : UpdateEnv) (project_id : String) (info : Entry) :
    EntryStepResult :=
  match env.versionsOf project_id with
  | [] => ⟨none, false, false, false, UpdateOutcome.noVersions⟩
  | latest :: _ =>
    if latest.version_number == info.version then
      ⟨none, false, false, false, UpdateOutcome.upToDate⟩
    else
      match select_primary_file latest.files with
      | none => ⟨none, false, false, false, UpdateOutcome.noFiles⟩
      | some primary_file =>
        let new_filename := primary_file.filename
        if env.downloadOk project_id then
          let warned : Bool :=
            if !(info.filename == new_filename) && env.oldFileExists project_id then
              !(env.deleteOk project_id)
            else
              false
          ⟨some ⟨info.name, latest.version_number, new_filename, latest.date_published⟩,
            true, true, warned, UpdateOutcome.updated⟩
        else
          ⟨none, true, false, false, UpdateOutcome.downloadFailed⟩

/-- The fold step threading the category bucket and the count of ledger
writes through the `update` loop: when the iteration produced a replacement
record it is written into the bucket (Python `content_dict[project_id] = {...}`)
and the ledger is persisted once more. -/
def update_fold_step (env : UpdateEnv) (acc : Bucket × Nat)
    (item : String × Entry) : Bucket × Nat :=
  match (update_entry env item.1 item.2).newEntry with
  | some e => (dict_insert acc.1 item.1 e, acc.2 + 1)
  | none => acc

/-- `MinecraftManager.update` for a given category
(src/mc-manager.py lines 341-420; the `content_type is None` driver merely
invokes this once per category): restrict to the name-query matches when a
query is given (returning unchanged when there are none), return unchanged
when there is nothing to check, and otherwise run the per-entry loop over a
snapshot of the items, threading the bucket. The second component counts the
`_save_installed_content` calls performed. -/
def update (env : UpdateEnv) (l : Ledger) (ct : ContentType)
    (name_query : Option String) : Ledger × Nat :=
  let content_dict := get_content_dict l ct
  let items_to_check : Option Bucket :=
    match name_query with
    | some q =>
      let matched := find_matches content_dict q
      if matched.isEmpty then none else some matched
    | none => some content_dict
  match items_to_check with
  | none => (l, 0)
  | some items =>
    if items.isEmpty then (l, 0)
    else
      let r := items.foldl (update_fold_step env) (content_dict, 0)
      (set_content_dict l ct r.1, r.2)

/- ------------------------------------------------------------------ -/
/- Theorems                                                            -/
/- ------------------------------------------------------------------ -/

theorem starts_with_chars_iff (ns hs : List Char) :
    starts_with_chars hs ns = true ↔ ∃ rest, hs = ns ++ rest := by
  induction ns generalizing hs with
  | nil =>
    simp [starts_with_chars]
  | cons b bs ih =>
    cases hs with
    | nil =>
      simp [starts_with_chars]
    | cons a as =>
      simp only [starts_with_chars, Bool.and_eq_true, beq_iff_eq, ih, List.cons_append,
        List.cons.injEq]
      constructor
      · rintro ⟨hab, rest, hr⟩
        exact ⟨rest, hab, hr⟩
      · rintro ⟨rest, hab, hr⟩
        exact ⟨hab, rest, hr⟩

theorem has_substring_iff (ns hs : List Char) :
    has_substring hs ns = true ↔ ∃ pre post, hs = pre ++ ns ++ post := by
  induction hs with
  | nil =>
    cases ns with
    | nil =>
      simp [has_substring]
    | cons b bs =>
      simp [has_substring]
  | cons a rest ih =>
    simp only [has_substring, Bool.or_eq_true, starts_with_chars_iff, ih]
    constructor
    · rintro (⟨r, hr⟩ | ⟨pre, post, hp⟩)
      · exact ⟨[], r, by simp [hr]⟩
      · exact ⟨a :: pre, post, by simp [hp]⟩
    · rintro ⟨pre, post, hp⟩
      cases pre with
      | nil =>
        exact Or.inl ⟨post, by simpa using hp⟩
      | cons a' pre' =>
        simp only [List.cons_append, List.cons.injEq] at hp
        exact Or.inr ⟨pre', post, hp.2⟩

/-- C1 (code_bug evidence): the facet list sent by search for the shader
category contains no project-type facet at all — with no game-version filter
it is empty, and with one it holds only the versions facet — while the mod
and resource-pack categories do get their project-type facet. The shader
branch of `ModrinthAPI.search` builds `[["project_type:shader"]]` only to
have the unconditional `facets = []` discard it. -/
theorem search_shader_facets_missing :
    search_facets ContentType.SHADER_PACK [] = []
    ∧ search_facets ContentType.SHADER_PACK ["1.20.1"] = [["versions:1.20.1"]]
    ∧ search_facets ContentType.MOD [] = [["project_type:mod"]]
    ∧ search_facets ContentType.RESOURCE_PACK [] = [["project_type:resourcepack"]]
    ∧ search_facets ContentType.MOD ["1.20.1"]
        = [["project_type:mod"], ["versions:1.20.1"]] := by
  refine ⟨rfl, rfl, rfl, rfl, rfl⟩

/-- C9: loading the ledger yields the empty three-bucket structure rather
than failing when the config file is missing or does not parse as JSON, and
the corruption warning is printed exactly in the unparsable case. -/
theorem load_installed_content_defaults :
    load_installed_content ConfigFile.missing = (default_ledger, false)
    ∧ load_installed_content ConfigFile.corrupted = (default_ledger, true)
    ∧ default_ledger.mods = []
    ∧ default_ledger.resourcepacks = []
    ∧ default_ledger.shaderpacks = [] := by
  refine ⟨rfl, rfl, rfl, rfl, rfl⟩

/-- C8: the name filter shared by uninstall and update matches an entry
exactly when the lowercased query occurs as a contiguous substring of the
lowercased display name; the match lists of both operations consist of
exactly the bucket entries passing that filter; the query "opti" matches an
entry named "OptiFine" although the two strings differ, matching is
insensitive to the case of either side, and a non-substring query does not
match. -/
theorem name_filter_substring_case_insensitive :
    (∀ q n : String, name_matches q n = true ↔
        ∃ pre post, (py_lower n).data = pre ++ (py_lower q).data ++ post)
    ∧ (∀ (b : Bucket) (q pid : String) (e : Entry),
        (pid, e) ∈ find_matches b q ↔ (pid, e) ∈ b ∧ name_matches q e.name = true)
    ∧ name_matches "opti" "OptiFine" = true
    ∧ "opti" ≠ "OptiFine"
    ∧ name_matches "oPtIfInE" "OptiFine" = true
    ∧ name_matches "OptiFineX" "OptiFine" = false := by
  refine ⟨?_, ?_, ?_, ?_, ?_, ?_⟩
  · intro q n
    exact has_substring_iff _ _
  · intro b q pid e
    simp [find_matches, List.mem_filter]
  · decide
  · decide
  · decide
  · decide

theorem get_set_same (l : Ledger) (ct : ContentType) (b : Bucket) :
    get_content_dict (set_content_dict l ct b) ct = b := by
  cases ct <;> rfl

theorem get_set_ne (l : Ledger) (ct ct' : ContentType) (b : Bucket) (h : ct' ≠ ct) :
    get_content_dict (set_content_dict l ct b) ct' = get_content_dict l ct' := by
  cases ct <;> cases ct' <;> first | rfl | exact absurd rfl h

theorem dict_insert_lookup_ne (k pid : String) (v : Entry) (h : k ≠ pid) :
    ∀ b : Bucket, dict_lookup (dict_insert b k v) pid = dict_lookup b pid := by
  intro b
  induction b with
  | nil =>
    simp [dict_insert, dict_lookup, h]
  | cons p rest ih =>
    rcases p with ⟨pk, pv⟩
    by_cases hp : pk = k
    · subst hp
      simp [dict_insert, dict_lookup, h]
    · simp [dict_insert, dict_lookup, hp, ih]

theorem dict_remove_lookup_self (pid : String) :
    ∀ b : Bucket, dict_lookup (dict_remove b pid) pid = none := by
  intro b
  induction b with
  | nil =>
    simp [dict_remove, dict_lookup]
  | cons p rest ih =>
    rcases p with ⟨pk, pv⟩
    by_cases hp : pk = pid
    · subst hp
      simp [dict_remove, ih]
    · simp [dict_remove, dict_lookup, hp, ih]

theorem dict_remove_lookup_ne (pid k : String) (h : k ≠ pid) :
    ∀ b : Bucket, dict_lookup (dict_remove b pid) k = dict_lookup b k := by
  intro b
  induction b with
  | nil =>
    simp [dict_remove]
  | cons p rest ih =>
    rcases p with ⟨pk, pv⟩
    by_cases hp : pk = pid
    · subst hp
      simp [dict_remove, dict_lookup, Ne.symm h, ih]
    · simp [dict_remove, dict_lookup, hp, ih]

theorem dict_lookup_of_mem_nodup (pid : String) (info : Entry) :
    ∀ b : Bucket, (pid, info) ∈ b → (b.map Prod.fst).Nodup →
      dict_lookup b pid = some info := by
  intro b
  induction b with
  | nil =>
    intro hmem _
    simp at hmem
  | cons p rest ih =>
    rcases p with ⟨pk, pv⟩
    intro hmem hnodup
    rcases List.mem_cons.mp hmem with heq | htail
    · rcases Prod.mk.injEq pid info pk pv ▸ heq with h
      have h1 : pk = pid := (Prod.mk.injEq pk pv pid info ▸ heq.symm).1
      have h2 : pv = info := (Prod.mk.injEq pk pv pid info ▸ heq.symm).2
      simp [dict_lookup, h1, h2]
    · have hne : pk ≠ pid := by
        intro hk
        subst hk
        have : pk ∈ rest.map Prod.fst := List.mem_map.mpr ⟨(pk, info), htail, rfl⟩
        exact (List.nodup_cons.mp hnodup).1 this
      simp [dict_lookup, hne]
      exact ih htail (List.nodup_cons.mp hnodup).2

theorem list_find_first (p : FileInfo → Bool) :
    ∀ (l : List FileInfo) (a : FileInfo), l.find? p = some a →
      ∃ pre post, l = pre ++ a :: post ∧ p a = true ∧ ∀ x ∈ pre, p x = false := by
  intro l
  induction l with
  | nil =>
    intro a h
    simp [List.find?] at h
  | cons b rest ih =>
    intro a h
    by_cases hb : p b = true
    · rw [List.find?_cons_of_pos _ hb] at h
      cases h
      exact ⟨[], rest, rfl, hb, by simp⟩
    · rw [List.find?_cons_of_neg _ (by simpa using hb)] at h
      obtain ⟨pre, post, hl, hpa, hpre⟩ := ih a h
      refine ⟨b :: pre, post, by simp [hl], hpa, ?_⟩
      intro x hx
      rcases List.mem_cons.mp hx with hxb | hxp
      · simpa [hxb] using Bool.eq_false_iff.mpr hb
      · exact hpre x hxp

/-- C2: for a non-empty file set, the file picked by the shared primary-file
selection of install and update is the first entry flagged primary when at
least one entry is flagged, and the first entry of the set otherwise. -/
theorem select_primary_file_spec (files : List FileInfo) (h : files ≠ []) :
    ∃ f, select_primary_file files = some f
      ∧ (files.any (fun g => g.primary) = true →
          ∃ pre post, files = pre ++ f :: post ∧ f.primary = true
            ∧ ∀ g ∈ pre, g.primary = false)
      ∧ (files.any (fun g => g.primary) = false → files.head? = some f) := by
  cases files with
  | nil => exact absurd rfl h
  | cons f0 rest =>
    cases hf : (f0 :: rest).find? (fun f => f.primary) with
    | none =>
      refine ⟨f0, ?_, ?_, ?_⟩
      · simp [select_primary_file, hf]
      · intro hany
        rw [List.find?_eq_none] at hf
        rw [List.any_eq_true] at hany
        obtain ⟨x, hx, hpx⟩ := hany
        exact absurd hpx (by simpa using hf x hx)
      · intro _
        rfl
    | some g =>
      refine ⟨g, ?_, ?_, ?_⟩
      · simp [select_primary_file, hf]
      · intro _
        exact list_find_first _ _ _ hf
      · intro hany
        obtain ⟨pre, post, hl, hpg, _⟩ := list_find_first _ _ _ hf
        have hg : g ∈ f0 :: rest := by
          rw [hl]
          exact List.mem_append.mpr (Or.inr (List.mem_cons_self _ _))
        rw [List.any_eq_false] at hany
        exact absurd hpg (by simpa using hany g hg)

/-- C2 witness: a concrete file set whose second entry is the first one
flagged primary. -/
theorem select_primary_file_spec_witness :
    ([FileInfo.mk "u1" "a.jar" false, FileInfo.mk "u2" "b.jar" true,
        FileInfo.mk "u3" "c.jar" true] : List FileInfo) ≠ []
    ∧ ∃ f, select_primary_file
          [FileInfo.mk "u1" "a.jar" false, FileInfo.mk "u2" "b.jar" true,
            FileInfo.mk "u3" "c.jar" true] = some f
      ∧ (([FileInfo.mk "u1" "a.jar" false, FileInfo.mk "u2" "b.jar" true,
            FileInfo.mk "u3" "c.jar" true].any (fun g => g.primary)) = true →
          ∃ pre post,
            [FileInfo.mk "u1" "a.jar" false, FileInfo.mk "u2" "b.jar" true,
              FileInfo.mk "u3" "c.jar" true] = pre ++ f :: post ∧ f.primary = true
            ∧ ∀ g ∈ pre, g.primary = false)
      ∧ (([FileInfo.mk "u1" "a.jar" false, FileInfo.mk "u2" "b.jar" true,
            FileInfo.mk "u3" "c.jar" true].any (fun g => g.primary)) = false →
          [FileInfo.mk "u1" "a.jar" false, FileInfo.mk "u2" "b.jar" true,
            FileInfo.mk "u3" "c.jar" true].head? = some f) :=
  ⟨by decide, select_primary_file_spec _ (by decide)⟩

/-- C3: when install reaches the download and the download reports failure,
the ledger — in memory and on disk — is exactly what it was before: the
result ledger is the input ledger, `_save_installed_content` is never
called, and the failure outcome is reported. -/
theorem install_download_failure_preserves_ledger
    (l : Ledger) (project_id : String) (ct : ContentType) (proj : Project)
    (version : VersionInfo) (vs : List VersionInfo)
    (hfiles : version.files ≠ []) :
    (install l project_id ct (some proj) (version :: vs) false).ledger = l
    ∧ (install l project_id ct (some proj) (version :: vs) false).downloaded = true
    ∧ (install l project_id ct (some proj) (version :: vs) false).saved = false
    ∧ (install l project_id ct (some proj) (version :: vs) false).outcome
        = InstallOutcome.downloadFailed := by
  cases hf : version.files with
  | nil => exact absurd hf hfiles
  | cons f0 rest =>
    simp [install, select_primary_file, hf]

/-- C3 witness: a failing download against a concrete ledger and version. -/
theorem install_download_failure_preserves_ledger_witness :
    (VersionInfo.mk "1.0" "2024-01-01" [FileInfo.mk "u" "sample.jar" true]).files ≠ []
    ∧ ((install default_ledger "proj123" ContentType.MOD (some (Project.mk "Sample Mod"))
          [VersionInfo.mk "1.0" "2024-01-01" [FileInfo.mk "u" "sample.jar" true]]
          false).ledger = default_ledger
      ∧ (install default_ledger "proj123" ContentType.MOD (some (Project.mk "Sample Mod"))
          [VersionInfo.mk "1.0" "2024-01-01" [FileInfo.mk "u" "sample.jar" true]]
          false).downloaded = true
      ∧ (install default_ledger "proj123" ContentType.MOD (some (Project.mk "Sample Mod"))
          [VersionInfo.mk "1.0" "2024-01-01" [FileInfo.mk "u" "sample.jar" true]]
          false).saved = false
      ∧ (install default_ledger "proj123" ContentType.MOD (some (Project.mk "Sample Mod"))
          [VersionInfo.mk "1.0" "2024-01-01" [FileInfo.mk "u" "sample.jar" true]]
          false).outcome = InstallOutcome.downloadFailed) :=
  ⟨by decide,
    install_download_failure_preserves_ledger default_ledger "proj123" ContentType.MOD
      (Project.mk "Sample Mod")
      (VersionInfo.mk "1.0" "2024-01-01" [FileInfo.mk "u" "sample.jar" true]) []
      (by decide)⟩

/-- C4: when uninstall has resolved to the single matching entry, the
recorded file exists on disk, and deleting it raises an OS error, the
operation aborts before touching the ledger: the ledger is returned
unchanged (the entry stays in its bucket), nothing is persisted, and the
deletion failure is reported. -/
theorem uninstall_delete_error_aborts
    (l : Ledger) (q : String) (ct : ContentType) (sel : Option Int)
    (pid : String) (info : Entry)
    (hm : find_matches (get_content_dict l ct) q = [(pid, info)]) :
    (uninstall l q ct sel true false).ledger = l
    ∧ (uninstall l q ct sel true false).deleteAttempted = true
    ∧ (uninstall l q ct sel true false).saved = false
    ∧ (uninstall l q ct sel true false).outcome = UninstallOutcome.deleteFailed := by
  simp [uninstall, hm, uninstall_resolved]

/-- C4 witness: a single "OptiFine" entry matched by "opti" whose file
deletion fails. -/
theorem uninstall_delete_error_aborts_witness :
    find_matches
        (get_content_dict
          (Ledger.mk [("p1", Entry.mk "OptiFine" "1.0" "of.jar" "2024-01-01")] [] [])
          ContentType.MOD) "opti"
      = [("p1", Entry.mk "OptiFine" "1.0" "of.jar" "2024-01-01")]
    ∧ ((uninstall (Ledger.mk [("p1", Entry.mk "OptiFine" "1.0" "of.jar" "2024-01-01")] [] [])
          "opti" ContentType.MOD none true false).ledger
        = Ledger.mk [("p1", Entry.mk "OptiFine" "1.0" "of.jar" "2024-01-01")] [] []
      ∧ (uninstall (Ledger.mk [("p1", Entry.mk "OptiFine" "1.0" "of.jar" "2024-01-01")] [] [])
          "opti" ContentType.MOD none true false).deleteAttempted = true
      ∧ (uninstall (Ledger.mk [("p1", Entry.mk "OptiFine" "1.0" "of.jar" "2024-01-01")] [] [])
          "opti" ContentType.MOD none true false).saved = false
      ∧ (uninstall (Ledger.mk [("p1", Entry.mk "OptiFine" "1.0" "of.jar" "2024-01-01")] [] [])
          "opti" ContentType.MOD none true false).outcome = UninstallOutcome.deleteFailed) :=
  ⟨by decide,
    uninstall_delete_error_aborts
      (Ledger.mk [("p1", Entry.mk "OptiFine" "1.0" "of.jar" "2024-01-01")] [] [])
      "opti" ContentType.MOD none "p1"
      (Entry.mk "OptiFine" "1.0" "of.jar" "2024-01-01") (by decide)⟩

/-- C7: when uninstall has resolved to the single matching entry and the
recorded file is absent from disk, the absence is not an error: deletion is
never attempted, the entry is removed from its category bucket, every other
key is untouched, and the ledger is persisted. -/
theorem uninstall_missing_file_idempotent
    (l : Ledger) (q : String) (ct : ContentType) (sel : Option Int)
    (pid : String) (info : Entry) (delete_ok : Bool)
    (hm : find_matches (get_content_dict l ct) q = [(pid, info)]) :
    (uninstall l q ct sel false delete_ok).deleteAttempted = false
    ∧ (uninstall l q ct sel false delete_ok).saved = true
    ∧ (uninstall l q ct sel false delete_ok).outcome = UninstallOutcome.removed
    ∧ dict_lookup
        (get_content_dict (uninstall l q ct sel false delete_ok).ledger ct) pid = none
    ∧ ∀ k, k ≠ pid →
        dict_lookup (get_content_dict (uninstall l q ct sel false delete_ok).ledger ct) k
          = dict_lookup (get_content_dict l ct) k := by
  have hres : uninstall l q ct sel false delete_ok
      = ⟨set_content_dict l ct (dict_remove (get_content_dict l ct) pid), false, true,
          UninstallOutcome.removed⟩ := by
    simp [uninstall, hm, uninstall_resolved]
  rw [hres]
  refine ⟨rfl, rfl, rfl, ?_, ?_⟩
  · rw [get_set_same]
    exact dict_remove_lookup_self pid _
  · intro k hk
    rw [get_set_same]
    exact dict_remove_lookup_ne pid k hk _

/-- C7 witness: uninstalling a single "OptiFine" entry whose file is already
absent, alongside an untouched second entry. -/
theorem uninstall_missing_file_idempotent_witness :
    find_matches
        (get_content_dict
          (Ledger.mk [("p1", Entry.mk "OptiFine" "1.0" "of.jar" "2024-01-01"),
            ("p2", Entry.mk "Sodium" "2.0" "so.jar" "2024-02-02")] [] [])
          ContentType.MOD) "opti"
      = [("p1", Entry.mk "OptiFine" "1.0" "of.jar" "2024-01-01")]
    ∧ ((uninstall (Ledger.mk [("p1", Entry.mk "OptiFine" "1.0" "of.jar" "2024-01-01"),
            ("p2", Entry.mk "Sodium" "2.0" "so.jar" "2024-02-02")] [] [])
          "opti" ContentType.MOD none false true).deleteAttempted = false
      ∧ (uninstall (Ledger.mk [("p1", Entry.mk "OptiFine" "1.0" "of.jar" "2024-01-01"),
            ("p2", Entry.mk "Sodium" "2.0" "so.jar" "2024-02-02")] [] [])
          "opti" ContentType.MOD none false true).saved = true
      ∧ (uninstall (Ledger.mk [("p1", Entry.mk "OptiFine" "1.0" "of.jar" "2024-01-01"),
            ("p2", Entry.mk "Sodium" "2.0" "so.jar" "2024-02-02")] [] [])
          "opti" ContentType.MOD none false true).outcome = UninstallOutcome.removed
      ∧ dict_lookup
          (get_content_dict
            (uninstall (Ledger.mk [("p1", Entry.mk "OptiFine" "1.0" "of.jar" "2024-01-01"),
              ("p2", Entry.mk "Sodium" "2.0" "so.jar" "2024-02-02")] [] [])
              "opti" ContentType.MOD none false true).ledger ContentType.MOD) "p1" = none
      ∧ ∀ k, k ≠ "p1" →
          dict_lookup
            (get_content_dict
              (uninstall (Ledger.mk [("p1", Entry.mk "OptiFine" "1.0" "of.jar" "2024-01-01"),
                ("p2", Entry.mk "Sodium" "2.0" "so.jar" "2024-02-02")] [] [])
                "opti" ContentType.MOD none false true).ledger ContentType.MOD) k
            = dict_lookup
                (get_content_dict
                  (Ledger.mk [("p1", Entry.mk "OptiFine" "1.0" "of.jar" "2024-01-01"),
                    ("p2", Entry.mk "Sodium" "2.0" "so.jar" "2024-02-02")] [] [])
                  ContentType.MOD) k) :=
  ⟨by decide,
    uninstall_missing_file_idempotent
      (Ledger.mk [("p1", Entry.mk "OptiFine" "1.0" "of.jar" "2024-01-01"),
        ("p2", Entry.mk "Sodium" "2.0" "so.jar" "2024-02-02")] [] [])
      "opti" ContentType.MOD none "p1"
      (Entry.mk "OptiFine" "1.0" "of.jar" "2024-01-01") true (by decide)⟩

theorem mem_nodup_entry_eq (pid : String) (e info : Entry) (b : Bucket)
    (he : (pid, e) ∈ b) (hi : (pid, info) ∈ b)
    (hnodup : (b.map Prod.fst).Nodup) : e = info := by
  have h1 := dict_lookup_of_mem_nodup pid e b he hnodup
  have h2 := dict_lookup_of_mem_nodup pid info b hi hnodup
  rw [h1] at h2
  exact Option.some.inj h2

theorem foldl_update_preserves (env : UpdateEnv) (pid : String) :
    ∀ (items : Bucket) (b : Bucket) (n : Nat),
      (∀ e : Entry, (pid, e) ∈ items → (update_entry env pid e).newEntry = none) →
      dict_lookup ((items.foldl (update_fold_step env) (b, n)).1) pid
        = dict_lookup b pid := by
  intro items
  induction items with
  | nil =>
    intro b n _
    rfl
  | cons item rest ih =>
    intro b n hskip
    rcases item with ⟨k, e⟩
    rw [List.foldl_cons]
    rcases hstep : (update_entry env k e).newEntry with _ | v
    · have hstep' : update_fold_step env (b, n) (k, e) = (b, n) := by
        simp [update_fold_step, hstep]
      rw [hstep']
      exact ih b n (fun e' he' => hskip e' (List.mem_cons_of_mem _ he'))
    · have hne : k ≠ pid := by
        intro hk
        subst hk
        have hcontra := hskip e (List.mem_cons_self _ _)
        rw [hstep] at hcontra
        exact Option.noConfusion hcontra
      have hstep' : update_fold_step env (b, n) (k, e) = (dict_insert b k v, n + 1) := by
        simp [update_fold_step, hstep]
      rw [hstep']
      rw [ih (dict_insert b k v) (n + 1) (fun e' he' => hskip e' (List.mem_cons_of_mem _ he'))]
      exact dict_insert_lookup_ne k pid v hne b

/-- C5: an update candidate whose latest remote version label is
string-equal to the recorded one is skipped: no download is attempted, no
record is written, the ledger is not persisted for it, it is reported up to
date, and after the whole (single-category) update run the entry is still
recorded unchanged under its project id. -/
theorem update_up_to_date_skips
    (env : UpdateEnv) (l : Ledger) (ct : ContentType) (q : Option String)
    (pid : String) (info : Entry) (latest : VersionInfo) (vs : List VersionInfo)
    (hmem : (pid, info) ∈ get_content_dict l ct)
    (hnodup : ((get_content_dict l ct).map Prod.fst).Nodup)
    (hv : env.versionsOf pid = latest :: vs)
    (heq : latest.version_number = info.version) :
    (update_entry env pid info).downloaded = false
    ∧ (update_entry env pid info).saved = false
    ∧ (update_entry env pid info).newEntry = none
    ∧ (update_entry env pid info).outcome = UpdateOutcome.upToDate
    ∧ dict_lookup (get_content_dict (update env l ct q).1 ct) pid = some info := by
  have hskip : update_entry env pid info
      = ⟨none, false, false, false, UpdateOutcome.upToDate⟩ := by
    simp [update_entry, hv, heq]
  have hskipAll : ∀ e : Entry, (pid, e) ∈ get_content_dict l ct →
      (update_entry env pid e).newEntry = none := by
    intro e he
    have hei : e = info := mem_nodup_entry_eq pid e info _ he hmem hnodup
    rw [hei, hskip]
  have hbase : dict_lookup (get_content_dict l ct) pid = some info :=
    dict_lookup_of_mem_nodup pid info _ hmem hnodup
  have hlook : dict_lookup (get_content_dict (update env l ct q).1 ct) pid = some info := by
    cases q with
    | none =>
      by_cases hempty : (get_content_dict l ct).isEmpty
      · have hupd : update env l ct none = (l, 0) := by
          simp [update, hempty]
        rw [hupd]
        exact hbase
      · have hupd : (update env l ct none).1
            = set_content_dict l ct
                (((get_content_dict l ct).foldl (update_fold_step env)
                  (get_content_dict l ct, 0)).1) := by
          simp [update, hempty]
        rw [hupd, get_set_same]
        rw [foldl_update_preserves env pid _ _ _ (fun e he => hskipAll e he)]
        exact hbase
    | some s =>
      by_cases hempty : (find_matches (get_content_dict l ct) s).isEmpty
      · have hupd : update env l ct (some s) = (l, 0) := by
          simp [update, hempty]
        rw [hupd]
        exact hbase
      · have hupd : (update env l ct (some s)).1
            = set_content_dict l ct
                (((find_matches (get_content_dict l ct) s).foldl (update_fold_step env)
                  (get_content_dict l ct, 0)).1) := by
          simp [update, hempty]
        rw [hupd, get_set_same]
        have hsub : ∀ e : Entry, (pid, e) ∈ find_matches (get_content_dict l ct) s →
            (pid, e) ∈ get_content_dict l ct := by
          intro e he
          have he' : (pid, e) ∈ (get_content_dict l ct).filter
              (fun p => name_matches s p.2.name) := he
          exact List.mem_of_mem_filter he'
        rw [foldl_update_preserves env pid (find_matches (get_content_dict l ct) s)
          (get_content_dict l ct) 0 (fun e he => hskipAll e (hsub e he))]
        exact hbase
  exact ⟨by rw [hskip], by rw [hskip], by rw [hskip], by rw [hskip], hlook⟩

/-- C6: when an update of an entry downloads the new file successfully, the
new filename differs from the recorded one, the old file exists, and
deleting it raises an OS error, the operation still commits: the warning is
printed, the record is replaced by one carrying the new version label, the
new filename and the new publish timestamp, and the ledger is persisted. -/
theorem update_stale_delete_failure_commits
    (env : UpdateEnv) (pid : String) (info : Entry)
    (latest : VersionInfo) (vs : List VersionInfo) (pf : FileInfo)
    (hv : env.versionsOf pid = latest :: vs)
    (hne : latest.version_number ≠ info.version)
    (hpf : select_primary_file latest.files = some pf)
    (hfn : pf.filename ≠ info.filename)
    (hdl : env.downloadOk pid = true)
    (hold : env.oldFileExists pid = true)
    (hdel : env.deleteOk pid = false) :
    (update_entry env pid info).warnedOldDelete = true
    ∧ (update_entry env pid info).saved = true
    ∧ (update_entry env pid info).newEntry
        = some (Entry.mk info.name latest.version_number pf.filename latest.date_published)
    ∧ (update_entry env pid info).outcome = UpdateOutcome.updated := by
  simp [update_entry, hv, hne, hpf, hdl, hold, hdel, Ne.symm hfn]

/-- C5 witness: a ledger holding one mod whose remote latest version label
equals the recorded one; a full single-category update leaves it recorded
unchanged. -/
theorem update_up_to_date_skips_witness :
    ("p1", Entry.mk "OptiFine" "1.0" "of.jar" "2024-01-01")
        ∈ get_content_dict
            (Ledger.mk [("p1", Entry.mk "OptiFine" "1.0" "of.jar" "2024-01-01")] [] [])
            ContentType.MOD
    ∧ ((get_content_dict
          (Ledger.mk [("p1", Entry.mk "OptiFine" "1.0" "of.jar" "2024-01-01")] [] [])
          ContentType.MOD).map Prod.fst).Nodup
    ∧ (UpdateEnv.mk
          (fun _ => [VersionInfo.mk "1.0" "2024-01-01" [FileInfo.mk "u" "of.jar" true]])
          (fun _ => true) (fun _ => true) (fun _ => true)).versionsOf "p1"
        = VersionInfo.mk "1.0" "2024-01-01" [FileInfo.mk "u" "of.jar" true] :: []
    ∧ (VersionInfo.mk "1.0" "2024-01-01" [FileInfo.mk "u" "of.jar" true]).version_number
        = (Entry.mk "OptiFine" "1.0" "of.jar" "2024-01-01").version
    ∧ ((update_entry
          (UpdateEnv.mk
            (fun _ => [VersionInfo.mk "1.0" "2024-01-01" [FileInfo.mk "u" "of.jar" true]])
            (fun _ => true) (fun _ => true) (fun _ => true)) "p1"
          (Entry.mk "OptiFine" "1.0" "of.jar" "2024-01-01")).downloaded = false
      ∧ (update_entry
          (UpdateEnv.mk
            (fun _ => [VersionInfo.mk "1.0" "2024-01-01" [FileInfo.mk "u" "of.jar" true]])
            (fun _ => true) (fun _ => true) (fun _ => true)) "p1"
          (Entry.mk "OptiFine" "1.0" "of.jar" "2024-01-01")).saved = false
      ∧ (update_entry
          (UpdateEnv.mk
            (fun _ => [VersionInfo.mk "1.0" "2024-01-01" [FileInfo.mk "u" "of.jar" true]])
            (fun _ => true) (fun _ => true) (fun _ => true)) "p1"
          (Entry.mk "OptiFine" "1.0" "of.jar" "2024-01-01")).newEntry = none
      ∧ (update_entry
          (UpdateEnv.mk
            (fun _ => [VersionInfo.mk "1.0" "2024-01-01" [FileInfo.mk "u" "of.jar" true]])
            (fun _ => true) (fun _ => true) (fun _ => true)) "p1"
          (Entry.mk "OptiFine" "1.0" "of.jar" "2024-01-01")).outcome
            = UpdateOutcome.upToDate
      ∧ dict_lookup
          (get_content_dict
            (update
              (UpdateEnv.mk
                (fun _ => [VersionInfo.mk "1.0" "2024-01-01" [FileInfo.mk "u" "of.jar" true]])
                (fun _ => true) (fun _ => true) (fun _ => true))
              (Ledger.mk [("p1", Entry.mk "OptiFine" "1.0" "of.jar" "2024-01-01")] [] [])
              ContentType.MOD none).1 ContentType.MOD) "p1"
          = some (Entry.mk "OptiFine" "1.0" "of.jar" "2024-01-01")) :=
  ⟨by decide, by decide, rfl, rfl,
    update_up_to_date_skips
      (UpdateEnv.mk
        (fun _ => [VersionInfo.mk "1.0" "2024-01-01" [FileInfo.mk "u" "of.jar" true]])
        (fun _ => true) (fun _ => true) (fun _ => true))
      (Ledger.mk [("p1", Entry.mk "OptiFine" "1.0" "of.jar" "2024-01-01")] [] [])
      ContentType.MOD none "p1" (Entry.mk "OptiFine" "1.0" "of.jar" "2024-01-01")
      (VersionInfo.mk "1.0" "2024-01-01" [FileInfo.mk "u" "of.jar" true]) []
      (by decide) (by decide) rfl rfl⟩

/-- C6 witness: an update whose new file "new.jar" replaces "old.jar" while
deleting the old file fails; the record still commits. -/
theorem update_stale_delete_failure_commits_witness :
    (UpdateEnv.mk
        (fun _ => [VersionInfo.mk "2.0" "2024-02-02" [FileInfo.mk "u" "new.jar" true]])
        (fun _ => true) (fun _ => true) (fun _ => false)).versionsOf "p1"
      = VersionInfo.mk "2.0" "2024-02-02" [FileInfo.mk "u" "new.jar" true] :: []
    ∧ (VersionInfo.mk "2.0" "2024-02-02" [FileInfo.mk "u" "new.jar" true]).version_number
        ≠ (Entry.mk "OptiFine" "1.0" "old.jar" "2024-01-01").version
    ∧ select_primary_file
        (VersionInfo.mk "2.0" "2024-02-02" [FileInfo.mk "u" "new.jar" true]).files
      = some (FileInfo.mk "u" "new.jar" true)
    ∧ (FileInfo.mk "u" "new.jar" true).filename
        ≠ (Entry.mk "OptiFine" "1.0" "old.jar" "2024-01-01").filename
    ∧ (UpdateEnv.mk
        (fun _ => [VersionInfo.mk "2.0" "2024-02-02" [FileInfo.mk "u" "new.jar" true]])
        (fun _ => true) (fun _ => true) (fun _ => false)).downloadOk "p1" = true
    ∧ (UpdateEnv.mk
        (fun _ => [VersionInfo.mk "2.0" "2024-02-02" [FileInfo.mk "u" "new.jar" true]])
        (fun _ => true) (fun _ => true) (fun _ => false)).oldFileExists "p1" = true
    ∧ (UpdateEnv.mk
        (fun _ => [VersionInfo.mk "2.0" "2024-02-02" [FileInfo.mk "u" "new.jar" true]])
        (fun _ => true) (fun _ => true) (fun _ => false)).deleteOk "p1" = false
    ∧ ((update_entry
          (UpdateEnv.mk
            (fun _ => [VersionInfo.mk "2.0" "2024-02-02" [FileInfo.mk "u" "new.jar" true]])
            (fun _ => true) (fun _ => true) (fun _ => false)) "p1"
          (Entry.mk "OptiFine" "1.0" "old.jar" "2024-01-01")).warnedOldDelete = true
      ∧ (update_entry
          (UpdateEnv.mk
            (fun _ => [VersionInfo.mk "2.0" "2024-02-02" [FileInfo.mk "u" "new.jar" true]])
            (fun _ => true) (fun _ => true) (fun _ => false)) "p1"
          (Entry.mk "OptiFine" "1.0" "old.jar" "2024-01-01")).saved = true
      ∧ (update_entry
          (UpdateEnv.mk
            (fun _ => [VersionInfo.mk "2.0" "2024-02-02" [FileInfo.mk "u" "new.jar" true]])
            (fun _ => true) (fun _ => true) (fun _ => false)) "p1"
          (Entry.mk "OptiFine" "1.0" "old.jar" "2024-01-01")).newEntry
        = some (Entry.mk (Entry.mk "OptiFine" "1.0" "old.jar" "2024-01-01").name
            (VersionInfo.mk "2.0" "2024-02-02" [FileInfo.mk "u" "new.jar" true]).version_number
            (FileInfo.mk "u" "new.jar" true).filename
            (VersionInfo.mk "2.0" "2024-02-02" [FileInfo.mk "u" "new.jar" true]).date_published)
      ∧ (update_entry
          (UpdateEnv.mk
            (fun _ => [VersionInfo.mk "2.0" "2024-02-02" [FileInfo.mk "u" "new.jar" true]])
            (fun _ => true) (fun _ => true) (fun _ => false)) "p1"
          (Entry.mk "OptiFine" "1.0" "old.jar" "2024-01-01")).outcome
        = UpdateOutcome.updated) :=
  ⟨rfl, by decide, rfl, by decide, rfl, rfl, rfl,
    update_stale_delete_failure_commits
      (UpdateEnv.mk
        (fun _ => [VersionInfo.mk "2.0" "2024-02-02" [FileInfo.mk "u" "new.jar" true]])
        (fun _ => true) (fun _ => true) (fun _ => false))
      "p1" (Entry.mk "OptiFine" "1.0" "old.jar" "2024-01-01")
      (VersionInfo.mk "2.0" "2024-02-02" [FileInfo.mk "u" "new.jar" true]) []
      (FileInfo.mk "u" "new.jar" true)
      rfl (by decide) rfl (by decide) rfl rfl rfl⟩

/-- C10: install, uninstall and single-category update on a category leave
the ledger buckets of both other categories exactly as they were; only the
selected category's bucket is ever replaced. -/
theorem operations_preserve_other_buckets
    (l : Ledger) (ct ct' : ContentType) (h : ct' ≠ ct)
    (project_id : String) (project : Option Project) (versions : List VersionInfo)
    (download_ok : Bool) (q : String) (sel : Option Int)
    (file_exists delete_ok : Bool) (env : UpdateEnv) (oq : Option String) :
    get_content_dict (install l project_id ct project versions download_ok).ledger ct'
        = get_content_dict l ct'
    ∧ get_content_dict (uninstall l q ct sel file_exists delete_ok).ledger ct'
        = get_content_dict l ct'
    ∧ get_content_dict (update env l ct oq).1 ct' = get_content_dict l ct' := by
  refine ⟨?_, ?_, ?_⟩
  · unfold install
    repeat' split
    all_goals first
      | rfl
      | exact get_set_ne l ct ct' _ h
  · simp only [uninstall, uninstall_resolved]
    repeat' split
    all_goals first
      | rfl
      | exact get_set_ne l ct ct' _ h
  · simp only [update]
    repeat' split
    all_goals first
      | rfl
      | exact get_set_ne l ct ct' _ h

/-- C10 witness: operations on the mod category leave the shader-pack bucket
unchanged. -/
theorem operations_preserve_other_buckets_witness :
    ContentType.SHADER_PACK ≠ ContentType.MOD
    ∧ (get_content_dict
          (install default_ledger "p" ContentType.MOD none [] false).ledger
          ContentType.SHADER_PACK
        = get_content_dict default_ledger ContentType.SHADER_PACK
      ∧ get_content_dict
          (uninstall default_ledger "x" ContentType.MOD none false false).ledger
          ContentType.SHADER_PACK
        = get_content_dict default_ledger ContentType.SHADER_PACK
      ∧ get_content_dict
          (update
            (UpdateEnv.mk (fun _ => []) (fun _ => false) (fun _ => false) (fun _ => false))
            default_ledger ContentType.MOD none).1 ContentType.SHADER_PACK
        = get_content_dict default_ledger ContentType.SHADER_PACK) :=
  ⟨by decide,
    operations_preserve_other_buckets default_ledger ContentType.MOD
      ContentType.SHADER_PACK (by decide) "p" none [] false "x" none false false
      (UpdateEnv.mk (fun _ => []) (fun _ => false) (fun _ => false) (fun _ => false)) none⟩
